import Mathlib

/-!
AO2-Client: the application coordinator (`src/aoapplication.cpp`).

A shallow embedding of `AOApplication`: the two view slots (`w_lobby`,
`w_courtroom`) with their construct/destruct guards, the connection
handlers, window placement, the BASS audio (re)initialisation and
`find_image`.

Conventions of the embedding.

* Stateful member functions take the `AOApplication` state and return the new
  state together with the list of observable effects they performed, in
  program order.
* `new T(...)` takes the next allocation serial `next_id` as the identity of the
  object and records it as live; `delete` removes it from the live objects.
  Identity is the allocation serial, not the address (an address may be reused
  after `delete`).
* C++ `int` arithmetic on screen and widget sizes is modelled on `Int`, with `/`
  as truncating division (`Int.tdiv`); sizes reported by Qt are far from the
  `int` range.
* Collaborators that live outside this file (`Options`, the screens, the sizes
  of freshly built widgets, `file_exists`, the BASS device table) are read from
  explicit parameters.
-/

namespace AO2

/-! ## Qt geometry -/

/-- Integer point (`QPoint`). -/
structure QPoint where
  x : Int
  y : Int
deriving DecidableEq, Repr

/-- Integer rectangle as built by `QRect(x, y, width, height)`. -/
structure QRect where
  x : Int
  y : Int
  width : Int
  height : Int
deriving DecidableEq, Repr

/-- Left edge `x1` of the rectangle. -/
def QRect.left (r : QRect) : Int := r.x

/-- Top edge `y1` of the rectangle. -/
def QRect.top (r : QRect) : Int := r.y

/-- Right edge `x2 = x1 + width - 1`, as Qt stores it. -/
def QRect.right (r : QRect) : Int := r.x + r.width - 1

/-- Bottom edge `y2 = y1 + height - 1`, as Qt stores it. -/
def QRect.bottom (r : QRect) : Int := r.y + r.height - 1

/-- Qt: `isNull` holds when `x2 == x1 - 1 && y2 == y1 - 1` (width and height 0). -/
def QRect.isNull (r : QRect) : Bool :=
  r.right == r.left - 1 && r.bottom == r.top - 1

/-- Qt library behaviour of `QRect::contains(const QPoint &)` (edges included):
a null rectangle contains nothing; otherwise the point is compared with the
normalised horizontal and vertical extents. -/
def QRect.contains (r : QRect) (p : QPoint) : Bool :=
  if r.isNull then false
  else
    let l := if r.right < r.left - 1 then r.right else r.left
    let rr := if r.right < r.left - 1 then r.left else r.right
    if p.x < l || p.x > rr then false
    else
      let t := if r.bottom < r.top - 1 then r.bottom else r.top
      let b := if r.bottom < r.top - 1 then r.top else r.bottom
      if p.y < t || p.y > b then false
      else true

/-- What the code reads from a `QScreen`. -/
structure QScreen where
  geometry : QRect
  availableGeometry : QRect
deriving DecidableEq, Repr

/-- The display query: `QGuiApplication::primaryScreen()` and
`QApplication::screens()`. -/
structure Displays where
  primaryScreen : QScreen
  screens : List QScreen

/-- What placement reads from a widget: `objectName()`, `width()`, `height()`. -/
structure QWidget where
  objectName : String
  width : Int
  height : Int
deriving DecidableEq, Repr

/-- The settings read through `Options::getInstance()`. -/
structure Options where
  restoreWindowPositionEnabled : Bool
  windowPosition : String → Option QPoint
  discordEnabled : Bool
  audioOutputDevice : String

/-- Everything outside the coordinator that the view operations read. The two
widgets give the object name and size of a freshly built `Lobby` and
`Courtroom`. -/
structure Env where
  options : Options
  displays : Displays
  lobbyWidget : QWidget
  courtroomWidget : QWidget

/-! ## Window placement -/

/-- `AOApplication::pointExistsOnScreen`: the loop over `QApplication::screens()`
returning `true` at the first screen whose available geometry contains the
point. -/
def pointExistsOnScreen : List QScreen → QPoint → Bool
  | [], _ => false
  | screen :: rest, point =>
    if screen.availableGeometry.contains point then true
    else pointExistsOnScreen rest point

/-- The `if` condition of `centerOrMoveWidgetOnPrimaryScreen`:
`!restoreWindowPositionEnabled() || !point.has_value() ||
 !pointExistsOnScreen(point.value())`, with the short-circuit order kept. -/
def placementFallsBack (o : Options) (d : Displays) (widget : QWidget) : Bool :=
  if !o.restoreWindowPositionEnabled then true
  else
    match o.windowPosition widget.objectName with
    | none => true
    | some point => !pointExistsOnScreen d.screens point

/-- The `then` branch: `geometry = primaryScreen()->geometry()`,
`x = (geometry.width() - widget->width()) / 2`, likewise `y`. -/
def centeredPoint (d : Displays) (widget : QWidget) : QPoint :=
  let geometry := d.primaryScreen.geometry
  { x := Int.tdiv (geometry.width - widget.width) 2
    y := Int.tdiv (geometry.height - widget.height) 2 }

/-- `AOApplication::centerOrMoveWidgetOnPrimaryScreen`: the argument of the one
`widget->move(x, y)` call it makes. -/
def centerOrMoveWidgetOnPrimaryScreen (o : Options) (d : Displays) (widget : QWidget) : QPoint :=
  if placementFallsBack o d widget then centeredPoint d widget
  else
    match o.windowPosition widget.objectName with
    | some point => point
    | none => centeredPoint d widget

/-! ## The coordinator state and its effects -/

/-- Observable effects of the view operations, in program order. -/
inductive Effect where
  | qWarning (msg : String)
  | qInfo (msg : String)
  | newLobby (id : Nat)
  | deleteLobby (id : Nat)
  | newCourtroom (id : Nat)
  | deleteCourtroom (id : Nat)
  | newDemoServer (id : Nat)
  | deleteLater (id : Nat)
  | move (widget : Nat) (x y : Int)
  | discordStateLobby
  | showWidget (widget : Nat)
  | connectSkipTimers (demo courtroom : Nat)
  | callNotice (msg : String)
  | setServerSubTheme (theme : String)
deriving DecidableEq, Repr

/-- The members of `AOApplication` the view operations touch, and the heap of
view objects: `next_id` is the serial the next `new` hands out, `live_lobbies`
and `live_courtrooms` are the objects built by `new` and not yet deleted. -/
structure AOApplication where
  w_lobby : Option Nat
  w_courtroom : Option Nat
  demo_server : Option Nat
  courtroom_loaded : Bool
  next_id : Nat
  live_lobbies : List Nat
  live_courtrooms : List Nat
deriving DecidableEq, Repr

/-- The coordinator right after its constructor: both slots null, nothing
allocated. -/
def AOApplication.init : AOApplication :=
  { w_lobby := none, w_courtroom := none, demo_server := none
    courtroom_loaded := false, next_id := 0
    live_lobbies := [], live_courtrooms := [] }

/-- `AOApplication::is_lobby_constructed`: `return w_lobby;`. -/
def is_lobby_constructed (s : AOApplication) : Bool := s.w_lobby.isSome

/-- `AOApplication::is_courtroom_constructed`: `return w_courtroom;`. -/
def is_courtroom_constructed (s : AOApplication) : Bool := s.w_courtroom.isSome

/-- `AOApplication::construct_lobby`. -/
def construct_lobby (env : Env) (s : AOApplication) : AOApplication × List Effect :=
  if is_lobby_constructed s then
    (s, [Effect.qWarning "lobby was attempted constructed when it already exists"])
  else
    let lobby := s.next_id
    let s1 := { s with w_lobby := some lobby, next_id := s.next_id + 1
                       live_lobbies := lobby :: s.live_lobbies }
    let p := centerOrMoveWidgetOnPrimaryScreen env.options env.displays env.lobbyWidget
    let presence := if env.options.discordEnabled then [Effect.discordStateLobby] else []
    let retire := match s1.demo_server with
      | some old => [Effect.deleteLater old]
      | none => []
    let demo := s1.next_id
    let s2 := { s1 with demo_server := some demo, next_id := s1.next_id + 1 }
    (s2, [Effect.newLobby lobby, Effect.move lobby p.x p.y] ++ presence ++ retire
          ++ [Effect.newDemoServer demo, Effect.showWidget lobby])

/-- `AOApplication::destruct_lobby`. -/
def destruct_lobby (s : AOApplication) : AOApplication × List Effect :=
  match s.w_lobby with
  | none => (s, [Effect.qWarning "lobby was attempted destructed when it did not exist"])
  | some lobby =>
    ({ s with w_lobby := none, live_lobbies := s.live_lobbies.erase lobby },
     [Effect.deleteLobby lobby])

/-- `AOApplication::construct_courtroom`. -/
def construct_courtroom (env : Env) (s : AOApplication) : AOApplication × List Effect :=
  if is_courtroom_constructed s then
    (s, [Effect.qWarning "courtroom was attempted constructed when it already exists"])
  else
    let courtroom := s.next_id
    let s1 := { s with w_courtroom := some courtroom, next_id := s.next_id + 1
                       live_courtrooms := courtroom :: s.live_courtrooms }
    let p := centerOrMoveWidgetOnPrimaryScreen env.options env.displays env.courtroomWidget
    let wire := match s1.demo_server with
      | some demo => [Effect.connectSkipTimers demo courtroom]
      | none => [Effect.qWarning "demo server did not exist during courtroom construction"]
    (s1, [Effect.newCourtroom courtroom, Effect.move courtroom p.x p.y] ++ wire)

/-- `AOApplication::destruct_courtroom`. -/
def destruct_courtroom (s : AOApplication) : AOApplication × List Effect :=
  match s.w_courtroom with
  | none => (s, [Effect.qWarning "courtroom was attempted destructed when it did not exist"])
  | some courtroom =>
    ({ s with w_courtroom := none, live_courtrooms := s.live_courtrooms.erase courtroom },
     [Effect.deleteCourtroom courtroom])

/-- `AOApplication::server_disconnected`. `isVisible` is what
`w_courtroom->isVisible()` answers; it is read only when a courtroom exists. -/
def server_disconnected (env : Env) (isVisible : Bool) (s : AOApplication) :
    AOApplication × List Effect :=
  let r :=
    if is_courtroom_constructed s then
      let notice := if isVisible then [Effect.callNotice "Disconnected from server."] else []
      let r1 := construct_lobby env s
      let r2 := destruct_courtroom r1.1
      (r2.1, notice ++ r1.2 ++ r2.2)
    else (s, [])
  (r.1, r.2 ++ [Effect.setServerSubTheme ""])

/-- `AOApplication::loading_cancelled`. -/
def loading_cancelled (s : AOApplication) : AOApplication × List Effect :=
  destruct_courtroom s

/-- `AOApplication::server_connected`. -/
def server_connected (env : Env) (s : AOApplication) : AOApplication × List Effect :=
  let r1 := destruct_courtroom s
  let r2 := construct_courtroom env r1.1
  ({ r2.1 with courtroom_loaded := false },
   [Effect.qInfo "Established connection to server."] ++ r1.2 ++ r2.2)

/-- One call of the view registry. -/
inductive ViewCall where
  | construct_lobby
  | destruct_lobby
  | construct_courtroom
  | destruct_courtroom
deriving DecidableEq, Repr

/-- Performs one registry call on the coordinator. -/
def ViewCall.run (env : Env) : ViewCall → AOApplication → AOApplication × List Effect
  | ViewCall.construct_lobby, s => AO2.construct_lobby env s
  | ViewCall.destruct_lobby, s => AO2.destruct_lobby s
  | ViewCall.construct_courtroom, s => AO2.construct_courtroom env s
  | ViewCall.destruct_courtroom, s => AO2.destruct_courtroom s

/-- The state after a finite sequence of registry calls, performed left to right. -/
def runCalls (env : Env) : List ViewCall → AOApplication → AOApplication
  | [], s => s
  | c :: cs, s => runCalls env cs (c.run env s).1

/-- Heap consistency: the live view objects are exactly the ones held by the
slots, and every identity in use was handed out by an earlier `new`. -/
def HeapOk (s : AOApplication) : Prop :=
  s.live_lobbies = s.w_lobby.toList ∧ s.live_courtrooms = s.w_courtroom.toList ∧
  (∀ i, s.w_lobby = some i → i < s.next_id) ∧
  (∀ i, s.w_courtroom = some i → i < s.next_id)

/-! ## Image lookup -/

/-- The `for` loop of `find_image`: `image_path` keeps its value until the first
path for which `file_exists` answers `true`, where the loop breaks. -/
def find_image_loop (file_exists : String → Bool) : List String → String → String
  | [], image_path => image_path
  | path :: rest, image_path =>
    if file_exists path then path
    else find_image_loop file_exists rest image_path

/-- `AOApplication::find_image`; `image_path` starts as the default-constructed
(empty) `QString`. `file_exists` is defined outside this file. -/
def find_image (file_exists : String → Bool) (p_list : List String) : String :=
  find_image_loop file_exists p_list ""

/-! ## BASS audio device -/

/-- The native calls made by the audio functions, in program order. The
arguments that are the same at every call site (frequency 48000,
`BASS_DEVICE_LATENCY`, null window and class id) are left out. -/
inductive BassCall where
  | BASS_SetConfig_DEV_DEFAULT
  | BASS_Free
  | BASS_Init (device : Int)
  | BASS_GetDeviceInfo (a : Nat)
  | BASS_SetDevice (a : Nat)
  | BASS_PluginLoad (file : String)
  | qInfo (msg : String)
deriving DecidableEq, Repr

/-- The three build targets of `load_bass_plugins`; any other target fails to
compile. -/
inductive Platform where
  | windows
  | apple
  | linux
deriving DecidableEq, Repr

/-- `AOApplication::load_bass_plugins`, one definition per platform. -/
def load_bass_plugins : Platform → List BassCall
  | Platform.windows => [BassCall.BASS_PluginLoad "bassopus.dll"]
  | Platform.apple => [BassCall.BASS_PluginLoad "libbassopus.dylib"]
  | Platform.linux => [BassCall.BASS_PluginLoad "libbassopus.so"]

/-- The conversion `static_cast<int>(a)` of an `unsigned int` on a 32-bit
`int`. -/
def static_cast_int (a : Nat) : Int :=
  if a % 2 ^ 32 < 2 ^ 31 then Int.ofNat (a % 2 ^ 32)
  else Int.ofNat (a % 2 ^ 32) - 2 ^ 32

/-- `AOApplication::doBASSreset`. -/
def doBASSreset (pf : Platform) : List BassCall :=
  [BassCall.BASS_Free, BassCall.BASS_Init (-1)] ++ load_bass_plugins pf

/-- The `for (a = 0; BASS_GetDeviceInfo(a, &info); a++)` loop of `initBASS`.
The device table is the list of names BASS reports: `BASS_GetDeviceInfo(a)`
succeeds with `info.name = devices[a]` for `a < devices.length` and fails at
`a = devices.length` (BASS device numbers fit an `int`, so `a` never wraps).
The list argument is the part of the table from index `a` on. Returns the calls
made and whether the body executed `return`. -/
def initBASS_loop (pf : Platform) (audioOutputDevice : String) :
    List String → Nat → List BassCall × Bool
  | [], a => ([BassCall.BASS_GetDeviceInfo a], false)
  | name :: rest, a =>
    if audioOutputDevice == name then
      ([BassCall.BASS_GetDeviceInfo a, BassCall.BASS_SetDevice a,
        BassCall.BASS_Init (static_cast_int a)] ++ load_bass_plugins pf
        ++ [BassCall.qInfo (name ++ " was set as the default audio output device.")], true)
    else
      let r := initBASS_loop pf audioOutputDevice rest (a + 1)
      (BassCall.BASS_GetDeviceInfo a :: r.1, r.2)

/-- `AOApplication::initBASS`, reading `audioOutputDevice` from the options. -/
def initBASS (pf : Platform) (audioOutputDevice : String) (devices : List String) :
    List BassCall :=
  let head := [BassCall.BASS_SetConfig_DEV_DEFAULT, BassCall.BASS_Free]
  if audioOutputDevice == "default" then
    head ++ [BassCall.BASS_Init (-1)] ++ load_bass_plugins pf
  else
    let r := initBASS_loop pf audioOutputDevice devices 0
    if r.2 then head ++ r.1
    else head ++ r.1 ++ [BassCall.BASS_Init (-1)] ++ load_bass_plugins pf

/-- One invocation of an audio entry point. -/
inductive AudioOp where
  | initBASS (audioOutputDevice : String) (devices : List String)
  | doBASSreset

/-- The native calls of one audio entry point. -/
def AudioOp.calls (pf : Platform) : AudioOp → List BassCall
  | AudioOp.initBASS name devices => AO2.initBASS pf name devices
  | AudioOp.doBASSreset => AO2.doBASSreset pf

/-- The native trace of a sequence of audio entry points run one after another. -/
def runAudio (pf : Platform) : List AudioOp → List BassCall
  | [] => []
  | op :: ops => op.calls pf ++ runAudio pf ops

/-- Whether a call is a device open. -/
def BassCall.isInit : BassCall → Bool
  | BassCall.BASS_Init _ => true
  | _ => false

/-- Replays a native trace on the engine handle (`true` = initialised).
`BASS_Free` releases it, `BASS_Init` initialises it; the answer is `none` when
a `BASS_Init` arrives while the handle is still initialised. -/
def replayHandle : Bool → List BassCall → Option Bool
  | h, [] => some h
  | _, BassCall.BASS_Free :: cs => replayHandle false cs
  | h, BassCall.BASS_Init _ :: cs => if h then none else replayHandle true cs
  | h, _ :: cs => replayHandle h cs

/-- The smallest index in the device table whose name equals `name`
(`devices.length` when there is none). -/
def firstMatch (name : String) : List String → Nat
  | [] => 0
  | d :: ds => if name == d then 0 else firstMatch name ds + 1

/-- The point the specification names as the fallback: the centre of the primary
display's available geometry for the widget's size. -/
def specAvailableCenter (d : Displays) (widget : QWidget) : QPoint :=
  let a := d.primaryScreen.availableGeometry
  { x := a.x + Int.tdiv (a.width - widget.width) 2
    y := a.y + Int.tdiv (a.height - widget.height) 2 }

/-! ## Concrete inputs used by the worked instances -/

/-- Settings with position restoration switched off and nothing persisted. -/
def exOptions : Options :=
  { restoreWindowPositionEnabled := false
    windowPosition := fun _ => none
    discordEnabled := false
    audioOutputDevice := "default" }

/-- A 1920x1080 display whose top 40 pixel rows are reserved (menu bar). -/
def exScreen : QScreen :=
  { geometry := { x := 0, y := 0, width := 1920, height := 1080 }
    availableGeometry := { x := 0, y := 40, width := 1920, height := 1040 } }

/-- A single attached display, which is the primary one. -/
def exDisplays : Displays := { primaryScreen := exScreen, screens := [exScreen] }

/-- An 800x600 widget. -/
def exWidget : QWidget := { objectName := "lobby", width := 800, height := 600 }

/-- Environment of the worked instances. -/
def exEnv : Env :=
  { options := exOptions, displays := exDisplays
    lobbyWidget := exWidget
    courtroomWidget := { objectName := "courtroom", width := 800, height := 600 } }

/-- A coordinator with both views built: lobby 0, helper 1, courtroom 2. -/
def exBothBuilt : AOApplication :=
  { w_lobby := some 0, w_courtroom := some 2, demo_server := some 1
    courtroom_loaded := true, next_id := 3
    live_lobbies := [0], live_courtrooms := [2] }

/-- Settings with restoration on and the point (100, 200) persisted for the
lobby. -/
def exRestoreOptions : Options :=
  { restoreWindowPositionEnabled := true
    windowPosition := fun name => if name == "lobby" then some { x := 100, y := 200 } else none
    discordEnabled := false
    audioOutputDevice := "default" }

/-- Settings with restoration on and a persisted point, (5000, 5000), that is on
no attached display. -/
def exStaleOptions : Options :=
  { restoreWindowPositionEnabled := true
    windowPosition := fun name => if name == "lobby" then some { x := 5000, y := 5000 } else none
    discordEnabled := false
    audioOutputDevice := "default" }

/-- A primary 1920x1080 display placed to the right of another one: its geometry
starts at (1920, 0) and all of it is available. -/
def exShiftedDisplays : Displays :=
  { primaryScreen :=
      { geometry := { x := 1920, y := 0, width := 1920, height := 1080 }
        availableGeometry := { x := 1920, y := 0, width := 1920, height := 1080 } }
    screens :=
      [{ geometry := { x := 1920, y := 0, width := 1920, height := 1080 }
         availableGeometry := { x := 1920, y := 0, width := 1920, height := 1080 } },
       { geometry := { x := 0, y := 0, width := 1920, height := 1080 }
         availableGeometry := { x := 0, y := 0, width := 1920, height := 1080 } }] }

/-- Settings with restoration on and the point (0, 0) persisted for the lobby;
(0, 0) lies in the reserved rows of `exScreen`, outside its available
geometry. -/
def exCoincideOptions : Options :=
  { restoreWindowPositionEnabled := true
    windowPosition := fun name => if name == "lobby" then some { x := 0, y := 0 } else none
    discordEnabled := false
    audioOutputDevice := "default" }

/-- A widget as large as the whole 1920x1080 display. -/
def exFullWidget : QWidget := { objectName := "lobby", width := 1920, height := 1080 }

/-! ## View registry: helper lemmas -/

theorem construct_lobby_occupied (env : Env) (s : AOApplication) (i : Nat)
    (h : s.w_lobby = some i) :
    construct_lobby env s =
      (s, [Effect.qWarning "lobby was attempted constructed when it already exists"]) := by
  simp [construct_lobby, is_lobby_constructed, h]

theorem construct_courtroom_occupied (env : Env) (s : AOApplication) (i : Nat)
    (h : s.w_courtroom = some i) :
    construct_courtroom env s =
      (s, [Effect.qWarning "courtroom was attempted constructed when it already exists"]) := by
  simp [construct_courtroom, is_courtroom_constructed, h]

theorem destruct_lobby_empty (s : AOApplication) (h : s.w_lobby = none) :
    destruct_lobby s =
      (s, [Effect.qWarning "lobby was attempted destructed when it did not exist"]) := by
  simp [destruct_lobby, h]

theorem destruct_courtroom_empty (s : AOApplication) (h : s.w_courtroom = none) :
    destruct_courtroom s =
      (s, [Effect.qWarning "courtroom was attempted destructed when it did not exist"]) := by
  simp [destruct_courtroom, h]

theorem construct_lobby_empty_state (env : Env) (s : AOApplication) (h : s.w_lobby = none) :
    (construct_lobby env s).1 =
      { s with w_lobby := some s.next_id, demo_server := some (s.next_id + 1)
               next_id := s.next_id + 2, live_lobbies := s.next_id :: s.live_lobbies } := by
  simp [construct_lobby, is_lobby_constructed, h]

theorem construct_courtroom_empty_state (env : Env) (s : AOApplication)
    (h : s.w_courtroom = none) :
    (construct_courtroom env s).1 =
      { s with w_courtroom := some s.next_id, next_id := s.next_id + 1
               live_courtrooms := s.next_id :: s.live_courtrooms } := by
  simp [construct_courtroom, is_courtroom_constructed, h]

theorem destruct_lobby_occupied_state (s : AOApplication) (i : Nat) (h : s.w_lobby = some i) :
    (destruct_lobby s).1 = { s with w_lobby := none, live_lobbies := s.live_lobbies.erase i } := by
  simp [destruct_lobby, h]

theorem destruct_courtroom_occupied_state (s : AOApplication) (i : Nat)
    (h : s.w_courtroom = some i) :
    (destruct_courtroom s).1 =
      { s with w_courtroom := none, live_courtrooms := s.live_courtrooms.erase i } := by
  simp [destruct_courtroom, h]

theorem heapOk_init : HeapOk AOApplication.init := by
  simp [HeapOk, AOApplication.init]

theorem heapOk_construct_lobby (env : Env) (s : AOApplication) (h : HeapOk s) :
    HeapOk (construct_lobby env s).1 := by
  obtain ⟨hl, hc, hli, hci⟩ := h
  cases hw : s.w_lobby with
  | some i => rw [construct_lobby_occupied env s i hw]; exact ⟨hl, hc, hli, hci⟩
  | none =>
    rw [construct_lobby_empty_state env s hw]
    refine ⟨?_, ?_, ?_, ?_⟩
    · simp [hl, hw]
    · simpa using hc
    · intro i hi
      simp at hi
      simp
      omega
    · intro i hi
      have := hci i (by simpa using hi)
      simp
      omega

theorem heapOk_destruct_lobby (s : AOApplication) (h : HeapOk s) :
    HeapOk (destruct_lobby s).1 := by
  obtain ⟨hl, hc, hli, hci⟩ := h
  cases hw : s.w_lobby with
  | none => rw [destruct_lobby_empty s hw]; exact ⟨hl, hc, hli, hci⟩
  | some i =>
    rw [destruct_lobby_occupied_state s i hw]
    refine ⟨?_, ?_, ?_, ?_⟩
    · simp [hl, hw]
    · simpa using hc
    · intro j hj
      simp at hj
    · intro j hj
      exact hci j (by simpa using hj)

theorem heapOk_construct_courtroom (env : Env) (s : AOApplication) (h : HeapOk s) :
    HeapOk (construct_courtroom env s).1 := by
  obtain ⟨hl, hc, hli, hci⟩ := h
  cases hw : s.w_courtroom with
  | some i => rw [construct_courtroom_occupied env s i hw]; exact ⟨hl, hc, hli, hci⟩
  | none =>
    rw [construct_courtroom_empty_state env s hw]
    refine ⟨?_, ?_, ?_, ?_⟩
    · simpa using hl
    · simp [hc, hw]
    · intro i hi
      have := hli i (by simpa using hi)
      simp
      omega
    · intro i hi
      simp at hi
      simp
      omega

theorem heapOk_destruct_courtroom (s : AOApplication) (h : HeapOk s) :
    HeapOk (destruct_courtroom s).1 := by
  obtain ⟨hl, hc, hli, hci⟩ := h
  cases hw : s.w_courtroom with
  | none => rw [destruct_courtroom_empty s hw]; exact ⟨hl, hc, hli, hci⟩
  | some i =>
    rw [destruct_courtroom_occupied_state s i hw]
    refine ⟨?_, ?_, ?_, ?_⟩
    · simpa using hl
    · simp [hc, hw]
    · intro j hj
      exact hli j (by simpa using hj)
    · intro j hj
      simp at hj

theorem heapOk_run (env : Env) (c : ViewCall) (s : AOApplication) (h : HeapOk s) :
    HeapOk (c.run env s).1 := by
  cases c
  · exact heapOk_construct_lobby env s h
  · exact heapOk_destruct_lobby s h
  · exact heapOk_construct_courtroom env s h
  · exact heapOk_destruct_courtroom s h

theorem heapOk_runCalls (env : Env) (calls : List ViewCall) :
    ∀ s : AOApplication, HeapOk s → HeapOk (runCalls env calls s) := by
  induction calls with
  | nil => intro s h; exact h
  | cons c cs ih => intro s h; exact ih _ (heapOk_run env c s h)

theorem toList_length_le_one (o : Option Nat) : o.toList.length ≤ 1 := by
  cases o <;> simp

/-! ## View registry and connection handlers: the claims -/

/-- C1 (as amended): after `server_disconnected` the courtroom slot is empty;
the lobby slot is occupied exactly when the lobby slot or the courtroom slot
was occupied before the call: with a courtroom present the lobby already there
is kept or a new one (serial `next_id`) is built, and with no courtroom present
the lobby slot is left as it was. -/
theorem server_disconnected_slots (env : Env) (isVisible : Bool) (s : AOApplication) :
    (server_disconnected env isVisible s).1.w_courtroom = none ∧
    (server_disconnected env isVisible s).1.w_lobby.isSome
      = (s.w_lobby.isSome || s.w_courtroom.isSome) ∧
    (server_disconnected env isVisible s).1.w_lobby
      = (if s.w_courtroom.isSome then some (s.w_lobby.getD s.next_id) else s.w_lobby) := by
  cases hc : s.w_courtroom with
  | none =>
    simp [server_disconnected, is_courtroom_constructed, hc]
  | some c =>
    cases hl : s.w_lobby with
    | some l =>
      simp [server_disconnected, is_courtroom_constructed, hc, hl,
        construct_lobby_occupied env s l hl, destruct_courtroom]
    | none =>
      have h1 := construct_lobby_empty_state env s hl
      simp [server_disconnected, is_courtroom_constructed, hc, hl, h1, destruct_courtroom]

/-- C1 (as stated) fails: called on the coordinator with both slots empty,
`server_disconnected` returns with the lobby slot still empty. -/
theorem server_disconnected_leaves_lobby_empty :
    ¬ ((server_disconnected exEnv false AOApplication.init).1.w_lobby.isSome = true ∧
       (server_disconnected exEnv false AOApplication.init).1.w_courtroom = none) := by
  decide

/-- C2: after every finite sequence of registry calls from the initial
coordinator, the live lobbies are exactly the content of the lobby slot and the
live courtrooms exactly the content of the courtroom slot, so at most one of
each is alive; and a construct call on an occupied slot returns the state
unchanged (same instance in the slot, no allocation) with only a warning. -/
theorem view_slots_hold_at_most_one (env : Env) (calls : List ViewCall) :
    (runCalls env calls AOApplication.init).live_lobbies
      = (runCalls env calls AOApplication.init).w_lobby.toList ∧
    (runCalls env calls AOApplication.init).live_courtrooms
      = (runCalls env calls AOApplication.init).w_courtroom.toList ∧
    (runCalls env calls AOApplication.init).live_lobbies.length ≤ 1 ∧
    (runCalls env calls AOApplication.init).live_courtrooms.length ≤ 1 ∧
    (∀ i, (runCalls env calls AOApplication.init).w_lobby = some i →
      construct_lobby env (runCalls env calls AOApplication.init)
        = (runCalls env calls AOApplication.init,
           [Effect.qWarning "lobby was attempted constructed when it already exists"])) ∧
    (∀ i, (runCalls env calls AOApplication.init).w_courtroom = some i →
      construct_courtroom env (runCalls env calls AOApplication.init)
        = (runCalls env calls AOApplication.init,
           [Effect.qWarning "courtroom was attempted constructed when it already exists"])) := by
  have h := heapOk_runCalls env calls AOApplication.init heapOk_init
  refine ⟨h.1, h.2.1, ?_, ?_, ?_, ?_⟩
  · rw [h.1]; exact toList_length_le_one _
  · rw [h.2.1]; exact toList_length_le_one _
  · intro i hi; exact construct_lobby_occupied env _ i hi
  · intro i hi; exact construct_courtroom_occupied env _ i hi

/-- Worked instance of C2: build the lobby, try to build it again, build the
courtroom, try again; lobby 0 and courtroom 2 stay in their slots. -/
theorem view_slots_hold_at_most_one_witness :
    (runCalls exEnv [ViewCall.construct_lobby, ViewCall.construct_lobby,
        ViewCall.construct_courtroom, ViewCall.construct_courtroom] AOApplication.init).w_lobby
      = some 0 ∧
    construct_lobby exEnv (runCalls exEnv [ViewCall.construct_lobby, ViewCall.construct_lobby,
        ViewCall.construct_courtroom, ViewCall.construct_courtroom] AOApplication.init)
      = (runCalls exEnv [ViewCall.construct_lobby, ViewCall.construct_lobby,
          ViewCall.construct_courtroom, ViewCall.construct_courtroom] AOApplication.init,
         [Effect.qWarning "lobby was attempted constructed when it already exists"]) :=
  ⟨by decide,
   (view_slots_hold_at_most_one exEnv [ViewCall.construct_lobby, ViewCall.construct_lobby,
      ViewCall.construct_courtroom, ViewCall.construct_courtroom]).2.2.2.2.1 0 (by decide)⟩

/-- C3: on a heap-consistent coordinator, `server_connected` leaves in the
courtroom slot the instance allocated during the call (serial `next_id` of the
prior state, announced by its `new`), which is neither the courtroom held before
nor any courtroom alive before, is the only live courtroom afterwards, and
`courtroom_loaded` is false. -/
theorem server_connected_fresh_courtroom (env : Env) (s : AOApplication) (h : HeapOk s) :
    (server_connected env s).1.w_courtroom = some s.next_id ∧
    Effect.newCourtroom s.next_id ∈ (server_connected env s).2 ∧
    s.next_id < (server_connected env s).1.next_id ∧
    s.w_courtroom ≠ some s.next_id ∧
    s.next_id ∉ s.live_courtrooms ∧
    (server_connected env s).1.live_courtrooms = [s.next_id] ∧
    (server_connected env s).1.courtroom_loaded = false := by
  obtain ⟨_, hc, _, hci⟩ := h
  have hne : s.w_courtroom ≠ some s.next_id := by
    intro hEq
    exact Nat.lt_irrefl _ (hci _ hEq)
  have hnot : s.next_id ∉ s.live_courtrooms := by
    rw [hc]
    cases hw : s.w_courtroom with
    | none => simp
    | some c =>
      simp only [Option.toList_some, List.mem_singleton]
      intro hEq
      exact hne (by rw [hw, hEq])
  cases hw : s.w_courtroom with
  | none =>
    have hl : s.live_courtrooms = [] := by rw [hc, hw]; rfl
    refine ⟨?_, ?_, ?_, ?_, ?_, ?_, ?_⟩ <;>
      simp [server_connected, destruct_courtroom, construct_courtroom,
        is_courtroom_constructed, hw, hl]
  | some c =>
    have hl : s.live_courtrooms = [c] := by rw [hc, hw]; rfl
    have hcn : ¬ c = s.next_id := by
      intro hEq
      exact hne (by rw [hw, hEq])
    refine ⟨?_, ?_, ?_, ?_, ?_, ?_, ?_⟩ <;>
      simp [server_connected, destruct_courtroom, construct_courtroom,
        is_courtroom_constructed, hw, hl, hcn]
    · exact fun hEq => hcn hEq.symm

/-- Worked instance of C3: with lobby 0, helper 1 and courtroom 2 built,
`server_connected` replaces courtroom 2 by the new courtroom 3. -/
theorem server_connected_fresh_courtroom_witness :
    HeapOk exBothBuilt ∧
    (server_connected exEnv exBothBuilt).1.w_courtroom = some 3 ∧
    exBothBuilt.w_courtroom = some 2 ∧
    (server_connected exEnv exBothBuilt).1.courtroom_loaded = false :=
  have h : HeapOk exBothBuilt := by simp [HeapOk, exBothBuilt]
  ⟨h, (server_connected_fresh_courtroom exEnv exBothBuilt h).1, rfl,
   (server_connected_fresh_courtroom exEnv exBothBuilt h).2.2.2.2.2.2⟩

/-- C8: each of the four misuse calls returns the coordinator state it was
given, unchanged in every field, and its whole effect list is one `qWarning`:
no allocation, placement, presence, helper or show effect. -/
theorem lifecycle_misuse_is_noop (env : Env) (s : AOApplication) :
    (s.w_lobby.isSome = true → construct_lobby env s
      = (s, [Effect.qWarning "lobby was attempted constructed when it already exists"])) ∧
    (s.w_lobby = none → destruct_lobby s
      = (s, [Effect.qWarning "lobby was attempted destructed when it did not exist"])) ∧
    (s.w_courtroom.isSome = true → construct_courtroom env s
      = (s, [Effect.qWarning "courtroom was attempted constructed when it already exists"])) ∧
    (s.w_courtroom = none → destruct_courtroom s
      = (s, [Effect.qWarning "courtroom was attempted destructed when it did not exist"])) := by
  refine ⟨?_, destruct_lobby_empty s, ?_, destruct_courtroom_empty s⟩
  · intro h
    obtain ⟨i, hi⟩ := Option.isSome_iff_exists.mp h
    exact construct_lobby_occupied env s i hi
  · intro h
    obtain ⟨i, hi⟩ := Option.isSome_iff_exists.mp h
    exact construct_courtroom_occupied env s i hi

/-- Worked instances of C8: the two construct misuses on a coordinator with both
views built, the two destruct misuses on the initial coordinator. -/
theorem lifecycle_misuse_is_noop_witness :
    construct_lobby exEnv exBothBuilt
      = (exBothBuilt, [Effect.qWarning "lobby was attempted constructed when it already exists"]) ∧
    construct_courtroom exEnv exBothBuilt
      = (exBothBuilt,
         [Effect.qWarning "courtroom was attempted constructed when it already exists"]) ∧
    destruct_lobby AOApplication.init
      = (AOApplication.init,
         [Effect.qWarning "lobby was attempted destructed when it did not exist"]) ∧
    destruct_courtroom AOApplication.init
      = (AOApplication.init,
         [Effect.qWarning "courtroom was attempted destructed when it did not exist"]) :=
  ⟨(lifecycle_misuse_is_noop exEnv exBothBuilt).1 rfl,
   (lifecycle_misuse_is_noop exEnv exBothBuilt).2.2.1 rfl,
   (lifecycle_misuse_is_noop exEnv AOApplication.init).2.1 rfl,
   (lifecycle_misuse_is_noop exEnv AOApplication.init).2.2.2 rfl⟩

/-! ## Window placement -/

theorem pointExistsOnScreen_iff (screens : List QScreen) (point : QPoint) :
    pointExistsOnScreen screens point = true ↔
      ∃ s ∈ screens, s.availableGeometry.contains point = true := by
  induction screens with
  | nil => simp [pointExistsOnScreen]
  | cons s rest ih =>
    by_cases hs : s.availableGeometry.contains point = true
    · simp [pointExistsOnScreen, hs]
    · simp [pointExistsOnScreen, hs, ih]

theorem placementFallsBack_eq_false_iff (o : Options) (d : Displays) (widget : QWidget) :
    placementFallsBack o d widget = false ↔
      (o.restoreWindowPositionEnabled = true ∧
        ∃ p, o.windowPosition widget.objectName = some p ∧
          ∃ s ∈ d.screens, s.availableGeometry.contains p = true) := by
  unfold placementFallsBack
  cases hr : o.restoreWindowPositionEnabled with
  | false => simp
  | true =>
    cases hp : o.windowPosition widget.objectName with
    | none => simp
    | some p => simp [pointExistsOnScreen_iff]

/-- C4 (as amended): with position restoration disabled and the primary
display's full geometry (`QScreen::geometry()`) starting at the origin, the
widget is moved to the exact centre of that full geometry for its size,
`(gx + (gw - w) / 2, gy + (gh - h) / 2)` with truncating division, whatever the
available geometry is; when the available geometry is the full geometry this
is the point the claim names. -/
theorem center_on_full_geometry_at_origin (o : Options) (d : Displays) (widget : QWidget)
    (h : o.restoreWindowPositionEnabled = false)
    (hx : d.primaryScreen.geometry.x = 0) (hy : d.primaryScreen.geometry.y = 0) :
    centerOrMoveWidgetOnPrimaryScreen o d widget
      = { x := d.primaryScreen.geometry.x
                + Int.tdiv (d.primaryScreen.geometry.width - widget.width) 2
          y := d.primaryScreen.geometry.y
                + Int.tdiv (d.primaryScreen.geometry.height - widget.height) 2 } ∧
    (d.primaryScreen.availableGeometry = d.primaryScreen.geometry →
      centerOrMoveWidgetOnPrimaryScreen o d widget = specAvailableCenter d widget) := by
  have h1 : centerOrMoveWidgetOnPrimaryScreen o d widget = centeredPoint d widget := by
    simp [centerOrMoveWidgetOnPrimaryScreen, placementFallsBack, h]
  refine ⟨?_, ?_⟩
  · rw [h1]
    simp [centeredPoint, hx, hy]
  · intro ha
    rw [h1]
    simp [specAvailableCenter, centeredPoint, ha, hx, hy]

/-- Worked instance of C4's amended statement: an 800x600 widget on the
1920x1080 display at the origin goes to (560, 240), although the available
geometry starts 40 rows lower. -/
theorem center_on_full_geometry_at_origin_witness :
    exOptions.restoreWindowPositionEnabled = false ∧
    exDisplays.primaryScreen.geometry.x = 0 ∧ exDisplays.primaryScreen.geometry.y = 0 ∧
    centerOrMoveWidgetOnPrimaryScreen exOptions exDisplays exWidget
      = { x := 0 + Int.tdiv (1920 - 800) 2, y := 0 + Int.tdiv (1080 - 600) 2 } :=
  ⟨rfl, rfl, rfl, (center_on_full_geometry_at_origin exOptions exDisplays exWidget rfl rfl rfl).1⟩

/-- C4 (as stated) fails, with restoration disabled and an 800x600 widget. On a
1920x1080 primary display whose available geometry is (0, 40, 1920, 1040) the
widget is moved to (560, 240), while the centre of the available geometry is
(560, 260). On a primary display whose geometry and available geometry are
(1920, 0, 1920, 1080) the widget is moved to (560, 240), while that centre is
(2480, 240). -/
theorem center_is_not_available_center :
    exOptions.restoreWindowPositionEnabled = false ∧
    centerOrMoveWidgetOnPrimaryScreen exOptions exDisplays exWidget = { x := 560, y := 240 } ∧
    specAvailableCenter exDisplays exWidget = { x := 560, y := 260 } ∧
    centerOrMoveWidgetOnPrimaryScreen exOptions exDisplays exWidget
      ≠ specAvailableCenter exDisplays exWidget ∧
    centerOrMoveWidgetOnPrimaryScreen exOptions exShiftedDisplays exWidget
      = { x := 560, y := 240 } ∧
    specAvailableCenter exShiftedDisplays exWidget = { x := 2480, y := 240 } ∧
    centerOrMoveWidgetOnPrimaryScreen exOptions exShiftedDisplays exWidget
      ≠ specAvailableCenter exShiftedDisplays exWidget := by
  decide

/-- C5 (as amended): when restoration is enabled, a point is persisted for the
widget's name and some attached display's available geometry contains it, the
widget is moved to that point verbatim. In every other case, in particular when
the persisted point is in no attached display's available geometry, the widget
is moved (for a primary display whose full geometry starts at the origin) to
the centre of the primary display's full geometry for its size,
`(gx + (gw - w) / 2, gy + (gh - h) / 2)`; that point is computed without the
persisted point, so the widget ends on the persisted point exactly when the
three conditions hold or the persisted point is that centre. -/
theorem placement_persisted_or_full_centre (o : Options) (d : Displays) (widget : QWidget) :
    (placementFallsBack o d widget = false ↔
      (o.restoreWindowPositionEnabled = true ∧
        ∃ p, o.windowPosition widget.objectName = some p ∧
          ∃ s ∈ d.screens, s.availableGeometry.contains p = true)) ∧
    (∀ p, o.restoreWindowPositionEnabled = true →
      o.windowPosition widget.objectName = some p →
      (∃ s ∈ d.screens, s.availableGeometry.contains p = true) →
      centerOrMoveWidgetOnPrimaryScreen o d widget = p) ∧
    (¬ (o.restoreWindowPositionEnabled = true ∧
        ∃ p, o.windowPosition widget.objectName = some p ∧
          ∃ s ∈ d.screens, s.availableGeometry.contains p = true) →
      d.primaryScreen.geometry.x = 0 → d.primaryScreen.geometry.y = 0 →
      centerOrMoveWidgetOnPrimaryScreen o d widget
        = { x := d.primaryScreen.geometry.x
                  + Int.tdiv (d.primaryScreen.geometry.width - widget.width) 2
            y := d.primaryScreen.geometry.y
                  + Int.tdiv (d.primaryScreen.geometry.height - widget.height) 2 }) ∧
    (∀ p, o.windowPosition widget.objectName = some p →
      (∀ s ∈ d.screens, s.availableGeometry.contains p = false) →
      d.primaryScreen.geometry.x = 0 → d.primaryScreen.geometry.y = 0 →
      centerOrMoveWidgetOnPrimaryScreen o d widget
        = { x := d.primaryScreen.geometry.x
                  + Int.tdiv (d.primaryScreen.geometry.width - widget.width) 2
            y := d.primaryScreen.geometry.y
                  + Int.tdiv (d.primaryScreen.geometry.height - widget.height) 2 }) ∧
    (∀ p, o.windowPosition widget.objectName = some p →
      d.primaryScreen.geometry.x = 0 → d.primaryScreen.geometry.y = 0 →
      (centerOrMoveWidgetOnPrimaryScreen o d widget = p ↔
        ((o.restoreWindowPositionEnabled = true ∧
            ∃ s ∈ d.screens, s.availableGeometry.contains p = true) ∨
          p = { x := d.primaryScreen.geometry.x
                      + Int.tdiv (d.primaryScreen.geometry.width - widget.width) 2
                y := d.primaryScreen.geometry.y
                      + Int.tdiv (d.primaryScreen.geometry.height - widget.height) 2 }))) := by
  have hiff := placementFallsBack_eq_false_iff o d widget
  have hcentre : d.primaryScreen.geometry.x = 0 → d.primaryScreen.geometry.y = 0 →
      centeredPoint d widget
        = { x := d.primaryScreen.geometry.x
                  + Int.tdiv (d.primaryScreen.geometry.width - widget.width) 2
            y := d.primaryScreen.geometry.y
                  + Int.tdiv (d.primaryScreen.geometry.height - widget.height) 2 } := by
    intro hx hy
    simp [centeredPoint, hx, hy]
  have hfb : placementFallsBack o d widget = true →
      centerOrMoveWidgetOnPrimaryScreen o d widget = centeredPoint d widget := by
    intro h
    simp [centerOrMoveWidgetOnPrimaryScreen, h]
  have hpers : ∀ p, o.restoreWindowPositionEnabled = true →
      o.windowPosition widget.objectName = some p →
      (∃ s ∈ d.screens, s.availableGeometry.contains p = true) →
      centerOrMoveWidgetOnPrimaryScreen o d widget = p := by
    intro p hr hp hs
    have hf : placementFallsBack o d widget = false := hiff.mpr ⟨hr, p, hp, hs⟩
    simp [centerOrMoveWidgetOnPrimaryScreen, hf, hp]
  have hother : ¬ (o.restoreWindowPositionEnabled = true ∧
        ∃ p, o.windowPosition widget.objectName = some p ∧
          ∃ s ∈ d.screens, s.availableGeometry.contains p = true) →
      centerOrMoveWidgetOnPrimaryScreen o d widget = centeredPoint d widget := by
    intro hn
    apply hfb
    cases hf : placementFallsBack o d widget with
    | true => rfl
    | false => exact absurd (hiff.mp hf) hn
  refine ⟨hiff, hpers, ?_, ?_, ?_⟩
  · intro hn hx hy
    rw [hother hn, hcentre hx hy]
  · intro p hp hs hx hy
    have hn : ¬ (o.restoreWindowPositionEnabled = true ∧
        ∃ q, o.windowPosition widget.objectName = some q ∧
          ∃ s ∈ d.screens, s.availableGeometry.contains q = true) := by
      rintro ⟨_, q, hq, s, hsm, hc⟩
      rw [hp] at hq
      cases hq
      rw [hs s hsm] at hc
      cases hc
    rw [hother hn, hcentre hx hy]
  · intro p hp hx hy
    by_cases hc : o.restoreWindowPositionEnabled = true ∧
        ∃ s ∈ d.screens, s.availableGeometry.contains p = true
    · constructor
      · intro _; exact Or.inl hc
      · intro _; exact hpers p hc.1 hp hc.2
    · have hn : ¬ (o.restoreWindowPositionEnabled = true ∧
          ∃ q, o.windowPosition widget.objectName = some q ∧
            ∃ s ∈ d.screens, s.availableGeometry.contains q = true) := by
        rintro ⟨hr, q, hq, hs⟩
        rw [hp] at hq
        cases hq
        exact hc ⟨hr, hs⟩
      rw [hother hn, hcentre hx hy]
      constructor
      · intro h; exact Or.inr h.symm
      · intro h
        rcases h with h | h
        · exact absurd h hc
        · exact h.symm

/-- Worked instances of C5's amended statement: the persisted (100, 200) is on
the display and is used verbatim; the persisted (5000, 5000) is on no display
and the 800x600 widget goes to the centre of the full 1920x1080 geometry. -/
theorem placement_persisted_or_full_centre_witness :
    centerOrMoveWidgetOnPrimaryScreen exRestoreOptions exDisplays exWidget
      = { x := 100, y := 200 } ∧
    centerOrMoveWidgetOnPrimaryScreen exStaleOptions exDisplays exWidget
      = { x := 0 + Int.tdiv (1920 - 800) 2, y := 0 + Int.tdiv (1080 - 600) 2 } :=
  ⟨(placement_persisted_or_full_centre exRestoreOptions exDisplays exWidget).2.1
      { x := 100, y := 200 } rfl rfl ⟨exScreen, by simp [exDisplays], by decide⟩,
   (placement_persisted_or_full_centre exStaleOptions exDisplays exWidget).2.2.2.1
      { x := 5000, y := 5000 } rfl (by decide) rfl rfl⟩

/-- C5 (as stated) fails on the 1920x1080 display with available geometry
(0, 40, 1920, 1040), restoration enabled. With (5000, 5000) persisted, which no
display contains, an 800x600 widget is moved to (560, 240), while the centre of
the available geometry is (560, 260). With (0, 0) persisted, which no display's
available geometry contains, a 1920x1080 widget is moved to the fallback (0, 0),
which is the persisted point. -/
theorem placement_fallback_not_as_claimed :
    (exStaleOptions.restoreWindowPositionEnabled = true ∧
      exStaleOptions.windowPosition exWidget.objectName = some { x := 5000, y := 5000 } ∧
      pointExistsOnScreen exDisplays.screens { x := 5000, y := 5000 } = false ∧
      centerOrMoveWidgetOnPrimaryScreen exStaleOptions exDisplays exWidget
        = { x := 560, y := 240 } ∧
      specAvailableCenter exDisplays exWidget = { x := 560, y := 260 }) ∧
    (exCoincideOptions.restoreWindowPositionEnabled = true ∧
      exCoincideOptions.windowPosition exFullWidget.objectName = some { x := 0, y := 0 } ∧
      pointExistsOnScreen exDisplays.screens { x := 0, y := 0 } = false ∧
      centerOrMoveWidgetOnPrimaryScreen exCoincideOptions exDisplays exFullWidget
        = { x := 0, y := 0 }) := by
  decide

/-! ## Image lookup -/

theorem find_image_loop_none (file_exists : String → Bool) (l : List String) (init : String)
    (h : ∀ q ∈ l, file_exists q = false) : find_image_loop file_exists l init = init := by
  induction l with
  | nil => rfl
  | cons a rest ih =>
    have ha : file_exists a = false := h a (List.mem_cons_self _ _)
    simp only [find_image_loop, ha]
    exact ih (fun q hq => h q (List.mem_cons_of_mem _ hq))

theorem find_image_loop_first (file_exists : String → Bool) (pre : List String) (p : String)
    (post : List String) (init : String) (hpre : ∀ q ∈ pre, file_exists q = false)
    (hp : file_exists p = true) :
    find_image_loop file_exists (pre ++ p :: post) init = p := by
  induction pre with
  | nil => simp [find_image_loop, hp]
  | cons a rest ih =>
    have ha : file_exists a = false := hpre a (List.mem_cons_self _ _)
    simp only [List.cons_append, find_image_loop, ha]
    exact ih (fun q hq => hpre q (List.mem_cons_of_mem _ hq))

/-- C10: `find_image` returns the first path, in list order, for which the file
exists (every path before it does not exist, whatever follows it), and the
empty string when no path of the list exists, the empty list included. -/
theorem find_image_first_existing (file_exists : String → Bool) (p_list : List String) :
    (∀ pre p post, p_list = pre ++ p :: post →
      (∀ q ∈ pre, file_exists q = false) → file_exists p = true →
      find_image file_exists p_list = p) ∧
    ((∀ q ∈ p_list, file_exists q = false) → find_image file_exists p_list = "") ∧
    find_image file_exists [] = "" := by
  refine ⟨?_, ?_, rfl⟩
  · intro pre p post hl hpre hp
    rw [hl]
    exact find_image_loop_first file_exists pre p post "" hpre hp
  · intro h
    exact find_image_loop_none file_exists p_list "" h

/-- Worked instances of C10: of three paths where the last two exist the second
is returned; when none exists the result is empty. -/
theorem find_image_first_existing_witness :
    find_image (fun p => p == "b.png" || p == "c.png") ["a.png", "b.png", "c.png"] = "b.png" ∧
    find_image (fun _ => false) ["a.png", "b.png"] = "" :=
  ⟨(find_image_first_existing (fun p => p == "b.png" || p == "c.png")
      ["a.png", "b.png", "c.png"]).1 ["a.png"] "b.png" ["c.png"] rfl (by decide) (by decide),
   (find_image_first_existing (fun _ => false) ["a.png", "b.png"]).2.1 (by decide)⟩

/-! ## BASS audio device: helper lemmas -/

theorem static_cast_int_small (a : Nat) (h : a < 2 ^ 31) : static_cast_int a = (a : Int) := by
  have h1 : a % 2 ^ 32 = a := Nat.mod_eq_of_lt (by omega)
  unfold static_cast_int
  rw [h1, if_pos h]
  rfl

theorem firstMatch_le (name : String) (l : List String) : firstMatch name l ≤ l.length := by
  induction l with
  | nil => simp [firstMatch]
  | cons d ds ih =>
    by_cases hd : name = d
    · simp [firstMatch, hd]
    · simp [firstMatch, hd]
      exact ih

theorem firstMatch_lt (name : String) (l : List String) (h : name ∈ l) :
    firstMatch name l < l.length := by
  induction l with
  | nil => simp at h
  | cons d ds ih =>
    by_cases hd : name = d
    · simp [firstMatch, hd]
    · have hm : name ∈ ds := by
        rcases List.mem_cons.mp h with h1 | h1
        · exact absurd h1 hd
        · exact h1
      simp [firstMatch, hd]
      exact ih hm

theorem firstMatch_get (name : String) (l : List String) (h : name ∈ l) :
    l[firstMatch name l]? = some name := by
  induction l with
  | nil => simp at h
  | cons d ds ih =>
    by_cases hd : name = d
    · simp [firstMatch, hd]
    · have hm : name ∈ ds := by
        rcases List.mem_cons.mp h with h1 | h1
        · exact absurd h1 hd
        · exact h1
      simp [firstMatch, hd]
      exact ih hm

theorem firstMatch_min (name : String) (l : List String) :
    ∀ j, j < firstMatch name l → l[j]? ≠ some name := by
  induction l with
  | nil => intro j hj; simp [firstMatch] at hj
  | cons d ds ih =>
    intro j hj
    by_cases hd : name = d
    · simp [firstMatch, hd] at hj
    · simp [firstMatch, hd] at hj
      cases j with
      | zero =>
        simp
        exact fun hEq => hd hEq.symm
      | succ k =>
        simp
        exact ih k (by omega)

theorem initBASS_loop_no_match (pf : Platform) (name : String) (l : List String) :
    ∀ a, name ∉ l →
      initBASS_loop pf name l a
        = ((List.range' a (l.length + 1)).map BassCall.BASS_GetDeviceInfo, false) := by
  induction l with
  | nil => intro a _; simp [initBASS_loop, List.range']
  | cons d ds ih =>
    intro a h
    have hd : ¬ name = d := fun hEq => h (by rw [hEq]; exact List.mem_cons_self _ _)
    have hm : name ∉ ds := fun hm => h (List.mem_cons_of_mem _ hm)
    simp [initBASS_loop, hd, ih (a + 1) hm, List.range']

theorem initBASS_loop_match (pf : Platform) (name : String) (l : List String) :
    ∀ a, name ∈ l →
      initBASS_loop pf name l a
        = ((List.range' a (firstMatch name l + 1)).map BassCall.BASS_GetDeviceInfo
            ++ [BassCall.BASS_SetDevice (a + firstMatch name l),
                BassCall.BASS_Init (static_cast_int (a + firstMatch name l))]
            ++ load_bass_plugins pf
            ++ [BassCall.qInfo (name ++ " was set as the default audio output device.")],
           true) := by
  induction l with
  | nil => intro a h; simp at h
  | cons d ds ih =>
    intro a h
    by_cases hd : name = d
    · subst hd
      simp [initBASS_loop, firstMatch, List.range']
    · have hm : name ∈ ds := by
        rcases List.mem_cons.mp h with h1 | h1
        · exact absurd h1 hd
        · exact h1
      have e : a + 1 + firstMatch name ds = a + (firstMatch name ds + 1) := by omega
      simp [initBASS_loop, firstMatch, hd, ih (a + 1) hm, List.range', e]

theorem initBASS_default (pf : Platform) (devices : List String) :
    initBASS pf "default" devices
      = [BassCall.BASS_SetConfig_DEV_DEFAULT, BassCall.BASS_Free, BassCall.BASS_Init (-1)]
          ++ load_bass_plugins pf := by
  simp [initBASS]

theorem initBASS_no_match (pf : Platform) (name : String) (devices : List String)
    (hname : name ≠ "default") (h : name ∉ devices) :
    initBASS pf name devices
      = [BassCall.BASS_SetConfig_DEV_DEFAULT, BassCall.BASS_Free]
          ++ (List.range (devices.length + 1)).map BassCall.BASS_GetDeviceInfo
          ++ [BassCall.BASS_Init (-1)] ++ load_bass_plugins pf := by
  simp [initBASS, hname, initBASS_loop_no_match pf name devices 0 h, List.range_eq_range']

theorem initBASS_match (pf : Platform) (name : String) (devices : List String)
    (hname : name ≠ "default") (h : name ∈ devices) :
    initBASS pf name devices
      = [BassCall.BASS_SetConfig_DEV_DEFAULT, BassCall.BASS_Free]
          ++ (List.range (firstMatch name devices + 1)).map BassCall.BASS_GetDeviceInfo
          ++ [BassCall.BASS_SetDevice (firstMatch name devices),
              BassCall.BASS_Init (static_cast_int (firstMatch name devices))]
          ++ load_bass_plugins pf
          ++ [BassCall.qInfo (name ++ " was set as the default audio output device.")] := by
  simp [initBASS, hname, initBASS_loop_match pf name devices 0 h, List.range_eq_range']

theorem load_bass_plugins_not_init (pf : Platform) :
    ∀ c ∈ load_bass_plugins pf, c.isInit = false ∧ c ≠ BassCall.BASS_Free := by
  intro c hc
  cases pf <;> simp [load_bass_plugins] at hc <;> subst hc <;> simp [BassCall.isInit]

theorem getDeviceInfo_not_init (l : List Nat) :
    ∀ c ∈ l.map BassCall.BASS_GetDeviceInfo, c.isInit = false ∧ c ≠ BassCall.BASS_Free := by
  intro c hc
  obtain ⟨a, _, rfl⟩ := List.mem_map.mp hc
  simp [BassCall.isInit]

theorem replayHandle_skip (l : List BassCall) (rest : List BassCall)
    (hl : ∀ c ∈ l, c.isInit = false ∧ c ≠ BassCall.BASS_Free) :
    ∀ h, replayHandle h (l ++ rest) = replayHandle h rest := by
  induction l with
  | nil => intro h; rfl
  | cons c cs ih =>
    intro h
    have hc := hl c (List.mem_cons_self _ _)
    have hcs := ih (fun x hx => hl x (List.mem_cons_of_mem _ hx))
    cases c with
    | BASS_Free => exact absurd rfl hc.2
    | BASS_Init d => simp [BassCall.isInit] at hc
    | BASS_SetConfig_DEV_DEFAULT => simpa [replayHandle] using hcs h
    | BASS_GetDeviceInfo a => simpa [replayHandle] using hcs h
    | BASS_SetDevice a => simpa [replayHandle] using hcs h
    | BASS_PluginLoad f => simpa [replayHandle] using hcs h
    | qInfo m => simpa [replayHandle] using hcs h

theorem countP_isInit_zero (l : List BassCall)
    (hl : ∀ c ∈ l, c.isInit = false ∧ c ≠ BassCall.BASS_Free) :
    l.countP BassCall.isInit = 0 := by
  rw [List.countP_eq_zero]
  intro c hc
  simp [(hl c hc).1]

/-- Shape of every `initBASS` trace: `BASS_SetConfig`, `BASS_Free`, calls that
neither open nor free, one `BASS_Init`, calls that neither open nor free. -/
theorem initBASS_shape (pf : Platform) (name : String) (devices : List String) :
    ∃ mid d post,
      initBASS pf name devices
        = BassCall.BASS_SetConfig_DEV_DEFAULT :: BassCall.BASS_Free
            :: (mid ++ BassCall.BASS_Init d :: post) ∧
      (∀ c ∈ mid, c.isInit = false ∧ c ≠ BassCall.BASS_Free) ∧
      (∀ c ∈ post, c.isInit = false ∧ c ≠ BassCall.BASS_Free) := by
  by_cases hname : name = "default"
  · subst hname
    refine ⟨[], -1, load_bass_plugins pf, ?_, ?_, load_bass_plugins_not_init pf⟩
    · rw [initBASS_default]; rfl
    · intro c hc; simp at hc
  · by_cases hm : name ∈ devices
    · refine ⟨(List.range (firstMatch name devices + 1)).map BassCall.BASS_GetDeviceInfo
          ++ [BassCall.BASS_SetDevice (firstMatch name devices)],
        static_cast_int (firstMatch name devices),
        load_bass_plugins pf
          ++ [BassCall.qInfo (name ++ " was set as the default audio output device.")],
        ?_, ?_, ?_⟩
      · rw [initBASS_match pf name devices hname hm]; simp
      · intro c hc
        rcases List.mem_append.mp hc with h1 | h1
        · exact getDeviceInfo_not_init _ c h1
        · simp at h1; subst h1; simp [BassCall.isInit]
      · intro c hc
        rcases List.mem_append.mp hc with h1 | h1
        · exact load_bass_plugins_not_init pf c h1
        · simp at h1; subst h1; simp [BassCall.isInit]
    · refine ⟨(List.range (devices.length + 1)).map BassCall.BASS_GetDeviceInfo, -1,
        load_bass_plugins pf, ?_, getDeviceInfo_not_init _, load_bass_plugins_not_init pf⟩
      rw [initBASS_no_match pf name devices hname hm]; simp

theorem replayHandle_calls (pf : Platform) (op : AudioOp) (rest : List BassCall) (h : Bool) :
    replayHandle h (op.calls pf ++ rest) = replayHandle true rest := by
  cases op with
  | doBASSreset =>
    simp only [AudioOp.calls, doBASSreset, List.cons_append, List.nil_append, replayHandle]
    simpa using replayHandle_skip _ rest (load_bass_plugins_not_init pf) true
  | initBASS name devices =>
    obtain ⟨mid, d, post, he, hmid, hpost⟩ := initBASS_shape pf name devices
    simp only [AudioOp.calls, he, List.cons_append, List.append_assoc, replayHandle]
    rw [replayHandle_skip mid _ hmid false]
    simp only [replayHandle]
    simpa using replayHandle_skip post rest hpost true

theorem load_bass_plugins_loads (pf : Platform) :
    ∃ f, f ∈ ["bassopus.dll", "libbassopus.dylib", "libbassopus.so"] ∧
      load_bass_plugins pf = [BassCall.BASS_PluginLoad f] := by
  cases pf
  · exact ⟨"bassopus.dll", by simp, rfl⟩
  · exact ⟨"libbassopus.dylib", by simp, rfl⟩
  · exact ⟨"libbassopus.so", by simp, rfl⟩

/-! ## BASS audio device: the claims -/

/-- C6: with the configured name "default", `initBASS` makes the calls
`BASS_SetConfig`, `BASS_Free`, `BASS_Init(-1)` and then one `BASS_PluginLoad` of
the platform's codec library, and nothing else, so no `BASS_GetDeviceInfo`; with
a name that is not "default" and names no enumerated device, it queries the
indices `0 .. devices.length` (the last query fails), then opens the default
device `-1` and right after it issues the `BASS_PluginLoad`. -/
theorem initBASS_default_and_unmatched (pf : Platform) (devices : List String) :
    initBASS pf "default" devices
      = [BassCall.BASS_SetConfig_DEV_DEFAULT, BassCall.BASS_Free, BassCall.BASS_Init (-1)]
          ++ load_bass_plugins pf ∧
    (∀ a, BassCall.BASS_GetDeviceInfo a ∉ initBASS pf "default" devices) ∧
    (∀ name, name ≠ "default" → name ∉ devices →
      initBASS pf name devices
        = [BassCall.BASS_SetConfig_DEV_DEFAULT, BassCall.BASS_Free]
            ++ (List.range (devices.length + 1)).map BassCall.BASS_GetDeviceInfo
            ++ [BassCall.BASS_Init (-1)] ++ load_bass_plugins pf) ∧
    (∃ f, f ∈ ["bassopus.dll", "libbassopus.dylib", "libbassopus.so"] ∧
      initBASS pf "default" devices
        = [BassCall.BASS_SetConfig_DEV_DEFAULT, BassCall.BASS_Free, BassCall.BASS_Init (-1),
           BassCall.BASS_PluginLoad f]) ∧
    (∀ name, name ≠ "default" → name ∉ devices →
      ∃ f, f ∈ ["bassopus.dll", "libbassopus.dylib", "libbassopus.so"] ∧
        initBASS pf name devices
          = [BassCall.BASS_SetConfig_DEV_DEFAULT, BassCall.BASS_Free]
              ++ (List.range (devices.length + 1)).map BassCall.BASS_GetDeviceInfo
              ++ [BassCall.BASS_Init (-1), BassCall.BASS_PluginLoad f]) := by
  obtain ⟨f, hf, hload⟩ := load_bass_plugins_loads pf
  refine ⟨initBASS_default pf devices, ?_, ?_, ?_, ?_⟩
  · intro a
    rw [initBASS_default, hload]
    simp
  · intro name hname hm
    exact initBASS_no_match pf name devices hname hm
  · refine ⟨f, hf, ?_⟩
    rw [initBASS_default, hload]
    rfl
  · intro name hname hm
    refine ⟨f, hf, ?_⟩
    rw [initBASS_no_match pf name devices hname hm, hload]
    simp

/-- Worked instance of C6: "USB Headset" is not among the two enumerated
devices, so after three queries the default device is opened. -/
theorem initBASS_default_and_unmatched_witness :
    initBASS Platform.linux "USB Headset" ["No sound", "Speakers"]
      = [BassCall.BASS_SetConfig_DEV_DEFAULT, BassCall.BASS_Free,
         BassCall.BASS_GetDeviceInfo 0, BassCall.BASS_GetDeviceInfo 1,
         BassCall.BASS_GetDeviceInfo 2, BassCall.BASS_Init (-1),
         BassCall.BASS_PluginLoad "libbassopus.so"] :=
  (initBASS_default_and_unmatched Platform.linux ["No sound", "Speakers"]).2.2.1
    "USB Headset" (by decide) (by decide)

/-- C7: for a configured name other than "default" that names an enumerated
device (the table being within the range of `int`), `firstMatch` is the smallest
index with that name, and `initBASS` queries the indices `0 .. firstMatch` in
increasing order, selects and opens exactly that index, right after the open
issues one `BASS_PluginLoad` of the platform's codec library, and logs; the
default device `-1` is not opened. -/
theorem initBASS_opens_first_match (pf : Platform) (name : String) (devices : List String)
    (hname : name ≠ "default") (hmem : name ∈ devices) (hlen : devices.length ≤ 2 ^ 31) :
    firstMatch name devices < devices.length ∧
    devices[firstMatch name devices]? = some name ∧
    (∀ j, j < firstMatch name devices → devices[j]? ≠ some name) ∧
    initBASS pf name devices
      = [BassCall.BASS_SetConfig_DEV_DEFAULT, BassCall.BASS_Free]
          ++ (List.range (firstMatch name devices + 1)).map BassCall.BASS_GetDeviceInfo
          ++ [BassCall.BASS_SetDevice (firstMatch name devices),
              BassCall.BASS_Init (Int.ofNat (firstMatch name devices))]
          ++ load_bass_plugins pf
          ++ [BassCall.qInfo (name ++ " was set as the default audio output device.")] ∧
    (initBASS pf name devices).countP BassCall.isInit = 1 ∧
    BassCall.BASS_Init (-1) ∉ initBASS pf name devices ∧
    (∃ f, f ∈ ["bassopus.dll", "libbassopus.dylib", "libbassopus.so"] ∧
      initBASS pf name devices
        = [BassCall.BASS_SetConfig_DEV_DEFAULT, BassCall.BASS_Free]
            ++ (List.range (firstMatch name devices + 1)).map BassCall.BASS_GetDeviceInfo
            ++ [BassCall.BASS_SetDevice (firstMatch name devices),
                BassCall.BASS_Init (Int.ofNat (firstMatch name devices)),
                BassCall.BASS_PluginLoad f,
                BassCall.qInfo (name ++ " was set as the default audio output device.")]) := by
  have hlt := firstMatch_lt name devices hmem
  have hcast : static_cast_int (firstMatch name devices) = Int.ofNat (firstMatch name devices) :=
    static_cast_int_small _ (by omega)
  have htrace := initBASS_match pf name devices hname hmem
  rw [hcast] at htrace
  obtain ⟨f, hf, hload⟩ := load_bass_plugins_loads pf
  refine ⟨hlt, firstMatch_get name devices hmem, firstMatch_min name devices, htrace, ?_, ?_,
    ⟨f, hf, by rw [htrace, hload]; simp⟩⟩
  · rw [htrace]
    simp only [List.countP_append, List.countP_cons, List.countP_nil, BassCall.isInit,
      countP_isInit_zero _ (getDeviceInfo_not_init _),
      countP_isInit_zero _ (load_bass_plugins_not_init pf)]
    simp
  · rw [htrace]
    have hneg : ¬ ((-1 : Int) = Int.ofNat (firstMatch name devices)) := by
      intro hEq
      have : (0 : Int) ≤ Int.ofNat (firstMatch name devices) := Int.ofNat_nonneg _
      omega
    cases pf <;> simp [load_bass_plugins, hneg]

/-- Worked instance of C7: two devices are called "Speakers"; the one at index 1
is opened, index 3 is never queried. -/
theorem initBASS_opens_first_match_witness :
    initBASS Platform.windows "Speakers" ["No sound", "Speakers", "Headphones", "Speakers"]
      = [BassCall.BASS_SetConfig_DEV_DEFAULT, BassCall.BASS_Free,
         BassCall.BASS_GetDeviceInfo 0, BassCall.BASS_GetDeviceInfo 1,
         BassCall.BASS_SetDevice 1, BassCall.BASS_Init 1,
         BassCall.BASS_PluginLoad "bassopus.dll",
         BassCall.qInfo "Speakers was set as the default audio output device."] :=
  (initBASS_opens_first_match Platform.windows "Speakers"
    ["No sound", "Speakers", "Headphones", "Speakers"]
    (by decide) (by decide) (by decide)).2.2.2.1

/-- C9: every `initBASS` trace is `BASS_SetConfig`, `BASS_Free`, calls that
neither open nor free, one `BASS_Init`, calls that neither open nor free, so it
holds exactly one open and a free precedes it with no open in between;
`doBASSreset` is exactly `BASS_Free`, `BASS_Init(-1)`, then one `BASS_PluginLoad`
of the platform's codec library; and replaying any sequence of the two entry
points from either handle state never meets a `BASS_Init` on an initialised
handle. -/
theorem audio_handle_opened_once (pf : Platform) :
    (∀ name devices, ∃ mid d post,
      initBASS pf name devices
        = BassCall.BASS_SetConfig_DEV_DEFAULT :: BassCall.BASS_Free
            :: (mid ++ BassCall.BASS_Init d :: post) ∧
      (∀ c ∈ mid, c.isInit = false) ∧ (∀ c ∈ post, c.isInit = false)) ∧
    (∀ name devices, (initBASS pf name devices).countP BassCall.isInit = 1) ∧
    doBASSreset pf = [BassCall.BASS_Free, BassCall.BASS_Init (-1)] ++ load_bass_plugins pf ∧
    (doBASSreset pf).countP BassCall.isInit = 1 ∧
    (∀ ops h, replayHandle h (runAudio pf ops) = some (if ops.isEmpty then h else true)) ∧
    (∃ f, f ∈ ["bassopus.dll", "libbassopus.dylib", "libbassopus.so"] ∧
      doBASSreset pf
        = [BassCall.BASS_Free, BassCall.BASS_Init (-1), BassCall.BASS_PluginLoad f]) := by
  refine ⟨?_, ?_, rfl, ?_, ?_, ?_⟩
  rotate_right
  · obtain ⟨f, hf, hload⟩ := load_bass_plugins_loads pf
    exact ⟨f, hf, by simp [doBASSreset, hload]⟩
  · intro name devices
    obtain ⟨mid, d, post, he, hmid, hpost⟩ := initBASS_shape pf name devices
    exact ⟨mid, d, post, he, fun c hc => (hmid c hc).1, fun c hc => (hpost c hc).1⟩
  · intro name devices
    obtain ⟨mid, d, post, he, hmid, hpost⟩ := initBASS_shape pf name devices
    rw [he]
    simp [List.countP_cons, List.countP_append, BassCall.isInit,
      countP_isInit_zero _ hmid, countP_isInit_zero _ hpost]
  · cases pf <;> decide
  · intro ops
    induction ops with
    | nil => intro h; rfl
    | cons op rest ih =>
      intro h
      simp only [runAudio, replayHandle_calls, List.isEmpty_cons]
      rw [ih true]
      cases rest <;> simp

/-- Worked instance of C9: on Linux `doBASSreset` frees, opens the default
device and loads `libbassopus.so`; a run of `initBASS` on a named device, a
device reset and `initBASS` on "default", started on an initialised handle,
never opens an initialised handle and ends initialised. -/
theorem audio_handle_opened_once_witness :
    doBASSreset Platform.linux
      = [BassCall.BASS_Free, BassCall.BASS_Init (-1),
         BassCall.BASS_PluginLoad "libbassopus.so"] ∧
    replayHandle true (runAudio Platform.linux
      [AudioOp.initBASS "Speakers" ["No sound", "Speakers"], AudioOp.doBASSreset,
       AudioOp.initBASS "default" ["No sound", "Speakers"]]) = some true :=
  ⟨(audio_handle_opened_once Platform.linux).2.2.1,
   (audio_handle_opened_once Platform.linux).2.2.2.2.1
      [AudioOp.initBASS "Speakers" ["No sound", "Speakers"], AudioOp.doBASSreset,
       AudioOp.initBASS "default" ["No sound", "Speakers"]] true⟩

end AO2
